/-
Verification of the XenLearn learning-platform managers.

Each Python manager class (`src/utils/*.py`) is shallowly embedded as pure
Lean functions: Python dicts become association lists (`List (key × value)`)
preserving insertion order, in-place mutation becomes explicit state passing,
floats become exact rationals (every constant in the source is a small
decimal, representable exactly), and fallible operations return
`Option`/`Except`.  External effects (file IO, the database connection, the
LLM API, timestamps, UUIDs) are modelled as explicit parameters.
-/
import Mathlib

/-! ### Association-list model of Python dicts

A Python dict is modelled as a `List (κ × α)` in insertion order.
`alookup` is `d.get(k)`; `aset` is `d[k] = v` (updating in place keeps the
key's position, a fresh key is appended at the end, as CPython does). -/

def alookup {κ α : Type} [DecidableEq κ] (k : κ) : List (κ × α) → Option α
  | [] => none
  | (k', v) :: t => if k' = k then some v else alookup k t

def aset {κ α : Type} [DecidableEq κ] (k : κ) (v : α) : List (κ × α) → List (κ × α)
  | [] => [(k, v)]
  | (k', v') :: t => if k' = k then (k, v) :: t else (k', v') :: aset k v t

def akeys {κ α : Type} (m : List (κ × α)) : List κ := m.map Prod.fst

theorem alookup_aset_self {κ α : Type} [DecidableEq κ] (k : κ) (v : α)
    (m : List (κ × α)) : alookup k (aset k v m) = some v := by
  induction m with
  | nil => simp [aset, alookup]
  | cons h t ih =>
    obtain ⟨k', v'⟩ := h
    by_cases hk : k' = k <;> simp [aset, alookup, hk, ih]

theorem alookup_aset_ne {κ α : Type} [DecidableEq κ] {k k' : κ} (hne : k ≠ k')
    (v : α) (m : List (κ × α)) : alookup k' (aset k v m) = alookup k' m := by
  induction m with
  | nil => simp [aset, alookup, hne]
  | cons h t ih =>
    obtain ⟨k₀, v₀⟩ := h
    by_cases hk : k₀ = k
    · subst hk
      simp [aset, alookup, hne]
    · simp [aset, alookup, hk, ih]

theorem alookup_mem_keys {κ α : Type} [DecidableEq κ] {k : κ} {m : List (κ × α)} :
    k ∈ akeys m → (alookup k m).isSome := by
  induction m with
  | nil => simp [akeys]
  | cons h t ih =>
    obtain ⟨k₀, v₀⟩ := h
    intro hmem
    by_cases hk : k₀ = k
    · simp [alookup, hk]
    · simp [akeys] at hmem
      rcases hmem with hmem | hmem
      · exact absurd hmem.symm hk
      · simpa [alookup, hk] using ih (by simpa [akeys] using hmem)

/-! ### Python string primitives

`strContains hay needle` is Python's `needle in hay` (substring test);
`lowerString` is `str.lower()` (per-character lowercasing). -/

def listIsInfix (needle : List Char) : List Char → Bool
  | [] => needle.isEmpty
  | c :: rest => needle.isPrefixOf (c :: rest) || listIsInfix needle rest

def strContains (hay needle : String) : Bool :=
  listIsInfix needle.data hay.data

def lowerString (s : String) : String :=
  ⟨s.data.map Char.toLower⟩

/-! ### `utils/course_manager.py` — `CourseManager`

A course dict is embedded as a structure (all sample courses populate every
field).  The manager's `self.courses` dict is iterated only through
`.values()` by the operations below, so it is modelled as the list of its
values in insertion order. -/

structure Course where
  course_id : String
  title : String
  description : String
  category : String
  difficulty : String
  estimated_hours : Nat
  rating : ℚ
  instructor : String
  tags : List String
deriving DecidableEq, Repr

namespace CourseManager

/-- `CourseManager.search_courses` (src/utils/course_manager.py lines 224-249):
keeps courses passing the category filter (unless `"All"`), the difficulty
filter (unless `"All"`) and, for a non-empty query, the lowercased-substring
test against title, description or a tag; then sorts by rating, highest
first (Python's stable `sort(key=rating, reverse=True)`). -/
def search_courses (courses : List Course) (query : String := "")
    (category : String := "All") (difficulty : String := "All") : List Course :=
  let filtered := courses.filter (fun course =>
    (category = "All" || course.category = category) &&
    (difficulty = "All" || course.difficulty = difficulty) &&
    (query = "" ||
      (strContains (lowerString course.title) (lowerString query) ||
       strContains (lowerString course.description) (lowerString query) ||
       course.tags.any (fun tag => strContains (lowerString tag) (lowerString query)))))
  List.insertionSort (fun a b => b.rating ≤ a.rating) filtered

/-- `CourseManager.get_recommended_courses` per-course score
(src/utils/course_manager.py lines 313-330), accumulated exactly as the
Python loop does. -/
def recommendation_score (user_interests : List String) (user_difficulty : String)
    (course : Course) : ℚ :=
  let interestScore := user_interests.foldl (fun score interest =>
    let score := if course.tags.any
        (fun tag => strContains (lowerString tag) (lowerString interest))
      then score + 2 else score
    if strContains (lowerString course.category) (lowerString interest)
      then score + 3 else score) 0
  let score := interestScore
  let score := if course.difficulty = user_difficulty then score + 1
    else if user_difficulty = "Mixed" then score + 1/2 else score
  score + course.rating * (1/2)

/-- `CourseManager.get_recommended_courses`
(src/utils/course_manager.py lines 302-339): skips enrolled courses, keeps
those with positive score tagged with their `recommendation_score`, sorts by
score descending and returns the top 10. -/
def get_recommended_courses (courses : List Course) (user_interests : List String)
    (user_difficulty : String) (exclude_enrolled : List String := []) :
    List (Course × ℚ) :=
  let recommendations := courses.filterMap (fun course =>
    if course.course_id ∈ exclude_enrolled then none
    else
      let score := recommendation_score user_interests user_difficulty course
      if 0 < score then some (course, score) else none)
  (List.insertionSort (fun a b => b.2 ≤ a.2) recommendations).take 10

/-- `CourseManager.enroll_user` (src/utils/course_manager.py lines 258-275)
acting on the `self.enrollments` dict (`user_id → list of course_ids`);
returns the Python return value and the updated dict. -/
def enroll_user (enrollments : List (String × List String))
    (user_id course_id : String) : Bool × List (String × List String) :=
  let enrollments := if alookup user_id enrollments = none
    then aset user_id [] enrollments else enrollments
  let userCourses := (alookup user_id enrollments).getD []
  if course_id ∈ userCourses then (false, enrollments)
  else (true, aset user_id (userCourses ++ [course_id]) enrollments)

end CourseManager

/-- Sample course used to instantiate hypotheses of the theorems below
(field values from the first sample course in
`CourseManager._initialize_sample_courses`, tags truncated). -/
def sampleCourse : Course :=
  ⟨"c1", "Python Programming Fundamentals", "Learn the basics", "Technology",
   "Beginner", 20, 45/10, "Dr. Sarah Johnson", ["python", "coding"]⟩

/-- Second sample course (from `Digital Marketing Strategy`). -/
def sampleCourse2 : Course :=
  ⟨"c2", "Digital Marketing Strategy", "Campaigns and SEO", "Business",
   "Beginner", 25, 43/10, "Maria Lopez", ["marketing", "SEO"]⟩

example :
    CourseManager.search_courses [sampleCourse, sampleCourse2] "PYTH" "All" "All" =
      [sampleCourse] := by
  with_unfolding_all decide

/-! Total-order instances for the descending comparison relations used by the
two stable sorts in `course_manager.py`. -/

instance : IsTotal (Course × ℚ) (fun a b => b.2 ≤ a.2) :=
  ⟨fun a b => le_total b.2 a.2⟩

instance : IsTrans (Course × ℚ) (fun a b => b.2 ≤ a.2) :=
  ⟨fun _ _ _ h₁ h₂ => le_trans h₂ h₁⟩

instance : IsTotal Course (fun a b => b.rating ≤ a.rating) :=
  ⟨fun a b => le_total b.rating a.rating⟩

instance : IsTrans Course (fun a b => b.rating ≤ a.rating) :=
  ⟨fun _ _ _ h₁ h₂ => le_trans h₂ h₁⟩

/-- The spec's reading of the recommendation score: a fixed linear weighted
sum — 2 per interest matching a tag (case-insensitive substring), 3 per
interest contained in the category, 1 for an exact difficulty match
(1/2 instead when the preference is `"Mixed"`), plus half the rating. -/
def spec_recommendation_score (user_interests : List String) (user_difficulty : String)
    (course : Course) : ℚ :=
  2 * (user_interests.countP (fun interest => course.tags.any
        (fun tag => strContains (lowerString tag) (lowerString interest)))) +
  3 * (user_interests.countP (fun interest =>
        strContains (lowerString course.category) (lowerString interest))) +
  (if course.difficulty = user_difficulty then 1
   else if user_difficulty = "Mixed" then 1/2 else 0) +
  course.rating * (1/2)

theorem foldl_interest_score (tagB catB : String → Bool) :
    ∀ (l : List String) (acc : ℚ),
      l.foldl (fun score interest =>
        let score := if tagB interest then score + 2 else score
        if catB interest then score + 3 else score) acc
      = acc + 2 * l.countP tagB + 3 * l.countP catB := by
  intro l
  induction l with
  | nil => intro acc; simp
  | cons a l ih =>
    intro acc
    simp only [List.foldl_cons, ih, List.countP_cons]
    by_cases hT : tagB a <;> by_cases hC : catB a <;>
      simp [hT, hC] <;> push_cast <;> ring

theorem recommendation_score_eq_spec (user_interests : List String)
    (user_difficulty : String) (course : Course) :
    CourseManager.recommendation_score user_interests user_difficulty course
      = spec_recommendation_score user_interests user_difficulty course := by
  unfold CourseManager.recommendation_score spec_recommendation_score
  rw [foldl_interest_score]
  by_cases hM : user_difficulty = "Mixed"
  · subst hM
    by_cases hD : course.difficulty = "Mixed" <;> simp [hD] <;> ring
  · by_cases hD : course.difficulty = user_difficulty <;> simp [hD, hM] <;> ring

/-- C3: every entry returned by `CourseManager.get_recommended_courses`
carries exactly the weighted-sum `recommendation_score` described by the
spec, belongs to a non-enrolled course, has strictly positive score; the
list is sorted by score in descending order and has at most 10 entries. -/
theorem get_recommended_courses_spec (courses : List Course)
    (user_interests : List String) (user_difficulty : String)
    (exclude_enrolled : List String) :
    (∀ p ∈ CourseManager.get_recommended_courses courses user_interests
        user_difficulty exclude_enrolled,
      p.2 = spec_recommendation_score user_interests user_difficulty p.1 ∧
      p.1.course_id ∉ exclude_enrolled ∧ 0 < p.2) ∧
    List.Sorted (fun a b : Course × ℚ => b.2 ≤ a.2)
      (CourseManager.get_recommended_courses courses user_interests
        user_difficulty exclude_enrolled) ∧
    (CourseManager.get_recommended_courses courses user_interests
        user_difficulty exclude_enrolled).length ≤ 10 := by
  unfold CourseManager.get_recommended_courses
  refine ⟨?_, ?_, ?_⟩
  · intro p hp
    have hp' := List.mem_of_mem_take hp
    rw [List.mem_insertionSort] at hp'
    rw [List.mem_filterMap] at hp'
    obtain ⟨course, _, hcourse⟩ := hp'
    by_cases hEx : course.course_id ∈ exclude_enrolled
    · simp [hEx] at hcourse
    · simp only [hEx, if_false, ite_not] at hcourse
      by_cases hPos :
          0 < CourseManager.recommendation_score user_interests user_difficulty course
      · simp only [if_pos hPos] at hcourse
        cases hcourse
        exact ⟨(recommendation_score_eq_spec _ _ _).symm ▸ rfl, hEx,
          by simpa using hPos⟩
      · simp [hPos] at hcourse
  · exact List.Pairwise.sublist (List.take_sublist _ _)
      (List.sorted_insertionSort _ _)
  · exact List.length_take_le _ _

/-- C3 witness: on the sample catalog with interest `"python"` the returned
recommendation carries the spec score 21/4 and satisfies the C3 properties. -/
theorem get_recommended_courses_spec_witness :
    (21/4 : ℚ) = spec_recommendation_score ["python"] "Beginner" sampleCourse ∧
    sampleCourse.course_id ∉ ([] : List String) ∧ (0 : ℚ) < 21/4 :=
  (get_recommended_courses_spec [sampleCourse] ["python"] "Beginner" []).1
    (sampleCourse, 21/4) (by with_unfolding_all decide)

/-- C7: `CourseManager.search_courses` returns exactly the courses passing
the category filter (unless `"All"`), the difficulty filter (unless
`"All"`) and, for a non-empty query, the case-insensitive substring test
against title, description or some tag; the result is sorted by rating in
descending order. -/
theorem search_courses_spec (courses : List Course)
    (query category difficulty : String) :
    (∀ c : Course, c ∈ CourseManager.search_courses courses query category difficulty ↔
      (c ∈ courses ∧
       (category = "All" ∨ c.category = category) ∧
       (difficulty = "All" ∨ c.difficulty = difficulty) ∧
       (query = "" ∨
         strContains (lowerString c.title) (lowerString query) = true ∨
         strContains (lowerString c.description) (lowerString query) = true ∨
         (∃ tag ∈ c.tags, strContains (lowerString tag) (lowerString query) = true)))) ∧
    List.Sorted (fun a b : Course => b.rating ≤ a.rating)
      (CourseManager.search_courses courses query category difficulty) := by
  unfold CourseManager.search_courses
  constructor
  · intro c
    rw [List.mem_insertionSort, List.mem_filter]
    simp only [Bool.and_eq_true, Bool.or_eq_true, decide_eq_true_eq,
      List.any_eq_true, and_assoc, or_assoc]
  · exact List.sorted_insertionSort _ _

/-! ### `utils/auth_manager.py` — `AuthManager`, and
`utils/file_user_manager.py` — `FileUserManager`

`self.users` is a dict keyed by username (`AuthManager`) or by generated
user id (`FileUserManager`).  The SHA-256 `_hash_password` is an external
primitive, passed in as `hash_password`; `uuid.uuid4()` and
`datetime.now().isoformat()` are passed in as `user_id` / `now`.  A user
dict becomes a structure; `password_hash : Option String` is `none` exactly
when Python's `del user_return['password_hash']` has removed the key (and
`del`/`[...]` on the missing key raises, which the broad guard turns into
`None`). -/

structure UserRecord where
  user_id : String
  username : String
  email : String
  password_hash : Option String
  preferences : List (String × String)
  created_at : String
  last_login : Option String
  is_active : Bool
deriving DecidableEq, Repr

namespace AuthManager

/-- `AuthManager.create_user` (src/utils/auth_manager.py lines 43-74). -/
def create_user (hash_password : String → String) (now user_id : String)
    (users : List (String × UserRecord)) (username email password : String)
    (preferences : List (String × String)) :
    Option UserRecord × List (String × UserRecord) :=
  if username ∈ akeys users then (none, users)
  else
    let user_data : UserRecord :=
      { user_id := user_id, username := username, email := email,
        password_hash := some (hash_password password),
        preferences := preferences, created_at := now,
        last_login := none, is_active := true }
    let users := aset username user_data users
    (some { user_data with password_hash := none }, users)

/-- `AuthManager.authenticate_user` (src/utils/auth_manager.py lines 76-100). -/
def authenticate_user (hash_password : String → String) (now : String)
    (users : List (String × UserRecord)) (username password : String) :
    Option UserRecord × List (String × UserRecord) :=
  match alookup username users with
  | none => (none, users)
  | some user_data =>
    match user_data.password_hash with
    | none => (none, users)
    | some stored_hash =>
      if stored_hash = hash_password password ∧ user_data.is_active then
        let user_data := { user_data with last_login := some now }
        let users := aset username user_data users
        (some { user_data with password_hash := none }, users)
      else (none, users)

/-- `AuthManager.get_user_by_id` (src/utils/auth_manager.py lines 144-156):
linear scan over `self.users.values()` for a matching `user_id`. -/
def get_user_by_id (users : List (String × UserRecord)) (user_id : String) :
    Option UserRecord :=
  match users.find? (fun kv => kv.2.user_id == user_id) with
  | none => none
  | some kv =>
    match kv.2.password_hash with
    | none => none
    | some _ => some { kv.2 with password_hash := none }

/-- Result dict of `AuthManager.get_all_users_stats`. -/
structure UsersStats where
  total_users : Nat
  active_users : Nat
  learning_styles_distribution : List (String × Nat)
  registration_dates : List String
deriving DecidableEq, Repr

/-- `AuthManager.get_all_users_stats` (src/utils/auth_manager.py
lines 174-195); every record of the model carries its fields, so the
`.get` defaults of the source only show in the `learning_style` lookup. -/
def get_all_users_stats (users : List (String × UserRecord)) : UsersStats :=
  { total_users := users.length,
    active_users := (users.map Prod.snd).countP (fun u => u.is_active),
    learning_styles_distribution := (users.map Prod.snd).foldl (fun acc u =>
      let style := (alookup "learning_style" u.preferences).getD "Unknown"
      aset style ((alookup style acc).getD 0 + 1) acc) [],
    registration_dates := (users.map Prod.snd).map (fun u => u.created_at) }

end AuthManager

/-- A stored record of `utils/file_user_manager.py`, keyed by user id. -/
structure FileUser where
  user_id : String
  username : String
  email : String
  password_hash : String
  preferences : List (String × String)
  created_at : String
deriving DecidableEq, Repr

namespace FileUserManager

/-- `FileUserManager.create_user` (src/utils/file_user_manager.py
lines 24-39): scans stored records for a matching `username` field and,
unlike `AuthManager`, returns the stored record itself (hash included). -/
def create_user (hash_password : String → String) (now user_id : String)
    (users : List (String × FileUser)) (username email password : String)
    (preferences : List (String × String)) :
    Option FileUser × List (String × FileUser) :=
  if (users.map Prod.snd).any (fun u => u.username == username) then (none, users)
  else
    let record : FileUser :=
      { user_id := user_id, username := username, email := email,
        password_hash := hash_password password,
        preferences := preferences, created_at := now }
    (some record, aset user_id record users)

end FileUserManager

/-- C1: creating a user whose username is already taken returns `None` and
leaves the stored user collection unchanged, for both `AuthManager`
(users keyed by username) and `FileUserManager` (linear scan over the
`username` fields of the stored records). -/
theorem create_user_duplicate_username (hash_password : String → String)
    (now user_id : String) (authUsers : List (String × UserRecord))
    (fileUsers : List (String × FileUser)) (username email password : String)
    (preferences : List (String × String)) :
    (username ∈ akeys authUsers →
      AuthManager.create_user hash_password now user_id authUsers
        username email password preferences = (none, authUsers)) ∧
    ((∃ kv ∈ fileUsers, kv.2.username = username) →
      FileUserManager.create_user hash_password now user_id fileUsers
        username email password preferences = (none, fileUsers)) := by
  constructor
  · intro h
    simp [AuthManager.create_user, h]
  · intro h
    obtain ⟨kv, hmem, heq⟩ := h
    have : (fileUsers.map Prod.snd).any (fun u => u.username == username) = true := by
      rw [List.any_eq_true]
      exact ⟨kv.2, List.mem_map_of_mem _ hmem, by simp [heq]⟩
    simp [FileUserManager.create_user, this]

/-- C1 witness: concrete duplicate creations on one-element stores. -/
theorem create_user_duplicate_username_witness :
    (AuthManager.create_user (fun s => s) "t0" "id1"
      [("alice", ⟨"id0", "alice", "a@x", some "pw", [], "t", none, true⟩)]
      "alice" "a@y" "pw2" [] =
      (none, [("alice", ⟨"id0", "alice", "a@x", some "pw", [], "t", none, true⟩)])) ∧
    (FileUserManager.create_user (fun s => s) "t0" "id1"
      [("id0", ⟨"id0", "alice", "a@x", "pw", [], "t"⟩)]
      "alice" "a@y" "pw2" [] =
      (none, [("id0", ⟨"id0", "alice", "a@x", "pw", [], "t"⟩)])) :=
  ⟨(create_user_duplicate_username (fun s => s) "t0" "id1"
      [("alice", ⟨"id0", "alice", "a@x", some "pw", [], "t", none, true⟩)]
      [("id0", ⟨"id0", "alice", "a@x", "pw", [], "t"⟩)]
      "alice" "a@y" "pw2" []).1 (by decide),
   (create_user_duplicate_username (fun s => s) "t0" "id1"
      [("alice", ⟨"id0", "alice", "a@x", some "pw", [], "t", none, true⟩)]
      [("id0", ⟨"id0", "alice", "a@x", "pw", [], "t"⟩)]
      "alice" "a@y" "pw2" []).2 ⟨("id0", ⟨"id0", "alice", "a@x", "pw", [], "t"⟩),
        by decide, rfl⟩⟩

/-- C9: every user dict returned by `AuthManager.create_user`,
`authenticate_user` or `get_user_by_id` has the `password_hash` key
removed, while the record kept in the users store still carries the hash. -/
theorem auth_manager_hides_password_hash (hash_password : String → String)
    (now user_id : String) (users : List (String × UserRecord))
    (username email password lookup_id : String)
    (preferences : List (String × String)) :
    (∀ r users', AuthManager.create_user hash_password now user_id users
        username email password preferences = (some r, users') →
      r.password_hash = none ∧
      ∃ u, alookup username users' = some u ∧
        u.password_hash = some (hash_password password)) ∧
    (∀ r users', AuthManager.authenticate_user hash_password now users
        username password = (some r, users') →
      r.password_hash = none ∧
      ∃ u, alookup username users' = some u ∧
        u.password_hash = some (hash_password password)) ∧
    (∀ r, AuthManager.get_user_by_id users lookup_id = some r →
      r.password_hash = none ∧
      ∃ kv ∈ users, kv.2.user_id = lookup_id ∧ kv.2.password_hash ≠ none) := by
  refine ⟨?_, ?_, ?_⟩
  · intro r users' h
    by_cases hmem : username ∈ akeys users
    · simp [AuthManager.create_user, hmem] at h
    · simp only [AuthManager.create_user, hmem, if_false] at h
      obtain ⟨hr, hu⟩ := Prod.mk.injEq .. ▸ h
      cases hr.symm
      cases hu
      exact ⟨rfl, _, alookup_aset_self .., rfl⟩
  · intro r users' h
    unfold AuthManager.authenticate_user at h
    cases hfind : alookup username users with
    | none => simp [hfind] at h
    | some user_data =>
      simp only [hfind] at h
      cases hhash : user_data.password_hash with
      | none => simp [hhash] at h
      | some stored_hash =>
        simp only [hhash] at h
        by_cases hcond : stored_hash = hash_password password ∧ user_data.is_active
        · rw [if_pos hcond] at h
          obtain ⟨hr, hu⟩ := Prod.mk.injEq .. ▸ h
          cases hr.symm
          cases hu
          refine ⟨rfl, _, alookup_aset_self .., ?_⟩
          simp [hcond.1]
        · rw [if_neg hcond] at h; cases h
  · intro r h
    unfold AuthManager.get_user_by_id at h
    cases hfind : users.find? (fun kv => kv.2.user_id == lookup_id) with
    | none => simp [hfind] at h
    | some kv =>
      simp only [hfind] at h
      cases hhash : kv.2.password_hash with
      | none => simp [hhash] at h
      | some stored_hash =>
        simp only [hhash] at h
        cases h
        refine ⟨rfl, kv, List.mem_of_find?_eq_some hfind, ?_, by simp [hhash]⟩
        have := List.find?_some hfind
        simpa using this

/-- C9 witness: the three operations applied to a concrete store. -/
theorem auth_manager_hides_password_hash_witness :
    ((⟨"id1", "bob", "b@x", none, [], "t0", none, true⟩ : UserRecord).password_hash = none ∧
      ∃ u, alookup "bob" [("alice", (⟨"id0", "alice", "a@x", some "pw", [], "t", none, true⟩ : UserRecord)),
            ("bob", ⟨"id1", "bob", "b@x", some "pw2", [], "t0", none, true⟩)] = some u ∧
        u.password_hash = some ((fun s => s) "pw2")) ∧
    ((⟨"id0", "alice", "a@x", none, [], "t", some "t0", true⟩ : UserRecord).password_hash = none ∧
      ∃ u, alookup "alice" [("alice", (⟨"id0", "alice", "a@x", some "pw", [], "t", some "t0", true⟩ : UserRecord))] = some u ∧
        u.password_hash = some ((fun s => s) "pw")) ∧
    ((⟨"id0", "alice", "a@x", none, [], "t", none, true⟩ : UserRecord).password_hash = none ∧
      ∃ kv ∈ [("alice", (⟨"id0", "alice", "a@x", some "pw", [], "t", none, true⟩ : UserRecord))],
        kv.2.user_id = "id0" ∧ kv.2.password_hash ≠ none) :=
  ⟨(auth_manager_hides_password_hash (fun s => s) "t0" "id1"
      [("alice", ⟨"id0", "alice", "a@x", some "pw", [], "t", none, true⟩)]
      "bob" "b@x" "pw2" "id0" []).1 _ _ (by decide),
   (auth_manager_hides_password_hash (fun s => s) "t0" "id1"
      [("alice", ⟨"id0", "alice", "a@x", some "pw", [], "t", none, true⟩)]
      "alice" "a@x" "pw" "id0" []).2.1 _ _ (by decide),
   (auth_manager_hides_password_hash (fun s => s) "t0" "id1"
      [("alice", ⟨"id0", "alice", "a@x", some "pw", [], "t", none, true⟩)]
      "alice" "a@x" "pw" "id0" []).2.2 _ (by decide)⟩

/-! ### `utils/quiz_generator.py` — `QuizGenerator`

The template tables of `_get_template_questions` use dicts with optional
keys, embedded as `Option` fields read back through the source's `.get`
defaults.  `generate_quiz` dispatches on `OPENAI_API_KEY`; the AI branch is
an external API call whose (unmodelled) result is passed in as `ai_quiz`. -/

structure TemplateQ where
  question : String
  options : Option (List String)
  correct_answer : Option String
  tf_answer : Option String
  explanation : Option String
deriving DecidableEq, Repr

structure QuizQuestion where
  question : String
  qtype : String
  options : List String
  correct_answer : String
  explanation : String
deriving DecidableEq, Repr

structure Quiz where
  quiz_id : String
  topic : String
  difficulty : String
  num_questions : Nat
  quiz_type : String
  questions : List QuizQuestion
  created_at : String
  generated_by : String
deriving DecidableEq, Repr

namespace QuizGenerator

/-- The `templates` dict of `QuizGenerator._get_template_questions`
(src/utils/quiz_generator.py lines 199-284), in insertion order. -/
def templates : List (String × List TemplateQ) :=
  [("python",
    [⟨"What is Python primarily used for?",
      some ["Web development", "Data science", "Automation", "All of the above"],
      some "All of the above", some "True",
      some "Python is a versatile language used in many domains."⟩,
     ⟨"Which keyword is used to define a function in Python?",
      some ["function", "def", "define", "func"], some "def", none,
      some "The \x27def\x27 keyword is used to define functions in Python."⟩,
     ⟨"Python is an interpreted language.", none, none, some "True",
      some "Python code is executed line by line by the Python interpreter."⟩,
     ⟨"Lists in Python are mutable.", none, none, some "True",
      some "Lists can be modified after creation, making them mutable."⟩]),
   ("machine learning",
    [⟨"What is supervised learning?",
      some ["Learning with labeled data", "Learning without labels",
            "Learning with rewards", "Learning by observation"],
      some "Learning with labeled data", none,
      some "Supervised learning uses labeled examples to train models."⟩,
     ⟨"Which algorithm is commonly used for classification?",
      some ["Linear Regression", "K-Means", "Decision Tree", "PCA"],
      some "Decision Tree", none,
      some "Decision trees are popular classification algorithms."⟩,
     ⟨"Neural networks are inspired by the human brain.", none, none, some "True",
      some "Neural networks mimic the structure of biological neural networks."⟩]),
   ("data science",
    [⟨"What does pandas library primarily handle?",
      some ["Images", "Data manipulation", "Web scraping", "Machine learning"],
      some "Data manipulation", none,
      some "Pandas is mainly used for data manipulation and analysis."⟩,
     ⟨"Which visualization library is most popular in Python?",
      some ["Seaborn", "Matplotlib", "Plotly", "Bokeh"],
      some "Matplotlib", none,
      some "Matplotlib is the most widely used plotting library in Python."⟩]),
   ("marketing",
    [⟨"What does SEO stand for?",
      some ["Search Engine Optimization", "Social Engagement Online",
            "Sales Enhancement Operation", "Site Efficiency Optimization"],
      some "Search Engine Optimization", none,
      some "SEO refers to optimizing content for search engines."⟩,
     ⟨"Content marketing focuses on creating valuable content.", none, none, some "True",
      some "Content marketing aims to provide value to attract and engage audiences."⟩]),
   ("mathematics",
    [⟨"What is the derivative of x²?",
      some ["x", "2x", "x²", "2"], some "2x", none,
      some "Using the power rule: d/dx(x²) = 2x."⟩,
     ⟨"The limit of a function always exists.", none, none, some "False",
      some "Limits may not exist if the function approaches different values from different directions."⟩])]

/-- The `default_questions` list of `_get_template_questions`
(src/utils/quiz_generator.py lines 287-295); the f-string uses the
(already lowercased) `difficulty` and `topic` arguments. -/
def default_questions (topic difficulty : String) : List TemplateQ :=
  [⟨"This is a " ++ difficulty ++ " level question about " ++ topic ++ ".",
    some ["Option A", "Option B", "Option C", "Option D"],
    some "Option A", some "True", some "This is a template explanation."⟩]

/-- `QuizGenerator._get_template_questions`
(src/utils/quiz_generator.py lines 197-302): first template key contained
in `topic` wins (`for key in templates: if key in topic`), else default. -/
def get_template_questions (topic difficulty : String) : List TemplateQ :=
  match templates.find? (fun kv => strContains topic kv.1) with
  | some kv => kv.2
  | none => default_questions topic difficulty

/-- The per-question branch of `_generate_template_quiz`
(src/utils/quiz_generator.py lines 162-177). -/
def select_question (quiz_type : String) (iq : Nat × TemplateQ) : QuizQuestion :=
  if quiz_type = "True/False" ∨ (quiz_type = "Mixed" ∧ iq.1 % 2 = 0) then
    { question := iq.2.question, qtype := "true_false",
      options := ["True", "False"],
      correct_answer := iq.2.tf_answer.getD "True",
      explanation := iq.2.explanation.getD "" }
  else
    { question := iq.2.question, qtype := "multiple_choice",
      options := iq.2.options.getD ["A", "B", "C", "D"],
      correct_answer := iq.2.correct_answer.getD "A",
      explanation := iq.2.explanation.getD "" }

/-- `QuizGenerator._generate_template_quiz`
(src/utils/quiz_generator.py lines 152-195). -/
def generate_template_quiz (quiz_id created_at topic difficulty : String)
    (num_questions : Nat) (quiz_type : String) : Quiz :=
  let template_questions :=
    get_template_questions (lowerString topic) (lowerString difficulty)
  let selected_questions :=
    (template_questions.take num_questions).enum.map (select_question quiz_type)
  { quiz_id := quiz_id, topic := topic, difficulty := difficulty,
    num_questions := selected_questions.length, quiz_type := quiz_type,
    questions := selected_questions, created_at := created_at,
    generated_by := "template" }

/-- `QuizGenerator.generate_quiz` (src/utils/quiz_generator.py
lines 52-65); `has_openai` is `bool(os.environ.get("OPENAI_API_KEY"))` and
`ai_quiz` the (external) result of `_generate_ai_quiz`. -/
def generate_quiz (has_openai : Bool) (ai_quiz : Option Quiz)
    (quiz_id created_at topic difficulty : String) (num_questions : Nat)
    (quiz_type : String) : Option Quiz :=
  if has_openai then ai_quiz
  else some (generate_template_quiz quiz_id created_at topic difficulty
    num_questions quiz_type)

end QuizGenerator

/-- Result dict of `QuizGenerator.calculate_score`. -/
structure ScoreResult where
  correct : Nat
  total : Nat
  percentage : ℚ
deriving DecidableEq, Repr

/-- Round half to even, as Python's builtin `round` does on exact values. -/
def round_half_even (x : ℚ) : ℤ :=
  let f := ⌊x⌋
  if x - f < 1/2 then f
  else if 1/2 < x - f then f + 1
  else if f % 2 = 0 then f else f + 1

/-- Python's `round(x, 1)` on exact rationals. -/
def round1 (x : ℚ) : ℚ := (round_half_even (10 * x) : ℚ) / 10

namespace QuizGenerator

/-- `QuizGenerator.calculate_score` (src/utils/quiz_generator.py
lines 304-328); `user_answers` is the `{index: answer}` dict, and a missing
index compares unequal to the correct answer (`None == str` is `False`). -/
def calculate_score (questions : List QuizQuestion)
    (user_answers : List (Nat × String)) : ScoreResult :=
  let total_questions := questions.length
  let correct_count := questions.enum.countP (fun iq =>
    alookup iq.1 user_answers == some iq.2.correct_answer)
  let percentage : ℚ :=
    if 0 < total_questions then (correct_count : ℚ) / total_questions * 100 else 0
  { correct := correct_count, total := total_questions,
    percentage := round1 percentage }

end QuizGenerator

theorem select_question_keeps_text (quiz_type : String) (iq : Nat × TemplateQ) :
    (QuizGenerator.select_question quiz_type iq).question = iq.2.question := by
  unfold QuizGenerator.select_question
  split <;> rfl

theorem generate_template_quiz_texts (quiz_id created_at topic difficulty : String)
    (num_questions : Nat) (quiz_type : String) :
    (QuizGenerator.generate_template_quiz quiz_id created_at topic difficulty
        num_questions quiz_type).questions.map (fun q => q.question) =
      ((QuizGenerator.get_template_questions (lowerString topic)
        (lowerString difficulty)).take num_questions).map (fun tq => tq.question) := by
  unfold QuizGenerator.generate_template_quiz
  rw [List.map_map]
  have hcongr : ∀ iq ∈ ((QuizGenerator.get_template_questions (lowerString topic)
      (lowerString difficulty)).take num_questions).enum,
      ((fun q => q.question) ∘ QuizGenerator.select_question quiz_type) iq
        = (fun iq : Nat × TemplateQ => iq.2.question) iq := by
    intro iq _
    exact select_question_keeps_text quiz_type iq
  rw [List.map_congr_left hcongr]
  have : (fun iq : Nat × TemplateQ => iq.2.question)
      = (fun tq : TemplateQ => tq.question) ∘ Prod.snd := rfl
  rw [this, ← List.map_map, List.enum, List.enumFrom_map_snd]

/-- C5 (amended): with no API key configured `generate_quiz` falls back to
the template generator over exactly the five hard-coded topic keys; when
the lowercased topic contains one of them (first match in table order) the
quiz's question texts are that key's template list truncated to
`num_questions`, and when it contains none of them the questions are the
single generic default question — provided `num_questions ≥ 1`, since the
default list is truncated to `num_questions` as well. -/
theorem generate_quiz_template_table (quiz_id created_at topic difficulty : String)
    (num_questions : Nat) (quiz_type : String) :
    (QuizGenerator.templates.map Prod.fst =
      ["python", "machine learning", "data science", "marketing", "mathematics"]) ∧
    (QuizGenerator.generate_quiz false none quiz_id created_at topic difficulty
        num_questions quiz_type =
      some (QuizGenerator.generate_template_quiz quiz_id created_at topic
        difficulty num_questions quiz_type)) ∧
    (∀ kv, QuizGenerator.templates.find?
        (fun e => strContains (lowerString topic) e.1) = some kv →
      (QuizGenerator.generate_template_quiz quiz_id created_at topic difficulty
          num_questions quiz_type).questions.map (fun q => q.question) =
        (kv.2.take num_questions).map (fun tq => tq.question)) ∧
    (QuizGenerator.templates.find?
        (fun e => strContains (lowerString topic) e.1) = none →
      1 ≤ num_questions →
      (QuizGenerator.generate_template_quiz quiz_id created_at topic difficulty
          num_questions quiz_type).questions.map (fun q => q.question) =
        ["This is a " ++ lowerString difficulty ++ " level question about " ++
          lowerString topic ++ "."]) := by
  refine ⟨rfl, rfl, ?_, ?_⟩
  · intro kv hfind
    rw [generate_template_quiz_texts]
    unfold QuizGenerator.get_template_questions
    rw [hfind]
  · intro hfind hn
    rw [generate_template_quiz_texts]
    unfold QuizGenerator.get_template_questions
    rw [hfind]
    have hlen : (QuizGenerator.default_questions (lowerString topic)
        (lowerString difficulty)).length ≤ num_questions := by
      simpa [QuizGenerator.default_questions] using hn
    rw [List.take_of_length_le hlen]
    rfl

/-- C5 witness: a matching topic (`"python basics"`) and a non-matching one
(`"history"`) instantiate the two conditional parts. -/
theorem generate_quiz_template_table_witness :
    ((QuizGenerator.generate_template_quiz "q0" "t0" "Python Basics" "Easy" 2
        "Multiple Choice").questions.map (fun q => q.question) =
      ["What is Python primarily used for?",
       "Which keyword is used to define a function in Python?"]) ∧
    ((QuizGenerator.generate_template_quiz "q0" "t0" "History" "Easy" 3
        "Multiple Choice").questions.map (fun q => q.question) =
      ["This is a easy level question about history."]) := by
  constructor
  · have h := (generate_quiz_template_table "q0" "t0" "Python Basics" "Easy" 2
      "Multiple Choice").2.2.1
        ("python", QuizGenerator.templates.head!.2) (by decide)
    simpa using h
  · have h := (generate_quiz_template_table "q0" "t0" "History" "Easy" 3
      "Multiple Choice").2.2.2 (by decide) (by decide)
    simpa using h

/-- C5 counterexample: for a topic containing none of the five keys and
`num_questions = 0`, the template quiz contains no question at all rather
than the single generic default question. -/
theorem generate_template_quiz_counterexample :
    QuizGenerator.templates.find?
      (fun e => strContains (lowerString "History") e.1) = none ∧
    (QuizGenerator.generate_template_quiz "q0" "t0" "History" "Beginner" 0
      "Multiple Choice").questions = [] := by
  constructor <;> rfl

theorem countP_enumFrom_eq_range (l : List QuizQuestion)
    (f : Nat × QuizQuestion → Bool) :
    ∀ s : Nat, (l.enumFrom s).countP f =
      (List.range l.length).countP (fun j =>
        match l[j]? with
        | some q => f (s + j, q)
        | none => false) := by
  induction l with
  | nil => intro s; simp
  | cons a t ih =>
    intro s
    rw [List.enumFrom_cons, List.countP_cons, List.length_cons,
      List.range_succ_eq_map, List.countP_cons, List.countP_map, ih (s + 1)]
    have harg : ((fun j =>
        match (a :: t)[j]? with
        | some q => f (s + j, q)
        | none => false) ∘ Nat.succ) = (fun j =>
        match t[j]? with
        | some q => f (s + 1 + j, q)
        | none => false) := by
      funext j
      simp only [Function.comp]
      have : s + Nat.succ j = s + 1 + j := by omega
      simp [this]
    rw [harg]
    simp

/-- C8: `calculate_score` is total, returns `{correct: 0, total: 0,
percentage: 0}` on an empty question list, and in general returns the
number of indices whose recorded answer equals the question's
`correct_answer`, the number of questions, and `100 * correct / total`
rounded to one decimal place (Python `round`, half to even). -/
theorem calculate_score_spec (questions : List QuizQuestion)
    (user_answers : List (Nat × String)) :
    (QuizGenerator.calculate_score [] user_answers = ⟨0, 0, 0⟩) ∧
    ((QuizGenerator.calculate_score questions user_answers).total
      = questions.length) ∧
    ((QuizGenerator.calculate_score questions user_answers).correct
      = (List.range questions.length).countP (fun i =>
          match questions[i]? with
          | some q => alookup i user_answers == some q.correct_answer
          | none => false)) ∧
    (0 < questions.length →
      (QuizGenerator.calculate_score questions user_answers).percentage
        = round1 (100 * ((QuizGenerator.calculate_score questions
            user_answers).correct : ℚ) / questions.length)) := by
  refine ⟨?_, rfl, ?_, ?_⟩
  · unfold QuizGenerator.calculate_score
    simp [round1, round_half_even]
  · unfold QuizGenerator.calculate_score
    simp only [List.enum]
    rw [countP_enumFrom_eq_range]
    simp
  · intro hpos
    unfold QuizGenerator.calculate_score
    simp only [hpos, if_pos]
    congr 1
    ring

/-- C8 witness: three questions, one matching recorded answer — the
percentage is `round1 (100/3) = 33.3`. -/
theorem calculate_score_spec_witness :
    0 < ([⟨"q1", "true_false", ["True", "False"], "True", ""⟩,
          ⟨"q2", "true_false", ["True", "False"], "False", ""⟩,
          ⟨"q3", "true_false", ["True", "False"], "True", ""⟩] :
            List QuizQuestion).length ∧
    (QuizGenerator.calculate_score
        [⟨"q1", "true_false", ["True", "False"], "True", ""⟩,
         ⟨"q2", "true_false", ["True", "False"], "False", ""⟩,
         ⟨"q3", "true_false", ["True", "False"], "True", ""⟩]
        [(0, "True"), (2, "False")]).percentage
      = round1 (100 * ((QuizGenerator.calculate_score
          [⟨"q1", "true_false", ["True", "False"], "True", ""⟩,
           ⟨"q2", "true_false", ["True", "False"], "False", ""⟩,
           ⟨"q3", "true_false", ["True", "False"], "True", ""⟩]
          [(0, "True"), (2, "False")]).correct : ℚ) / 3) :=
  ⟨by decide,
   (calculate_score_spec
      [⟨"q1", "true_false", ["True", "False"], "True", ""⟩,
       ⟨"q2", "true_false", ["True", "False"], "False", ""⟩,
       ⟨"q3", "true_false", ["True", "False"], "True", ""⟩]
      [(0, "True"), (2, "False")]).2.2.2 (by decide)⟩

/-! ### `utils/data_processor.py` — `DataProcessor.load_file`

A pandas frame is modelled by its column labels and rows; `df.empty` is
true when either axis is empty.  An uploaded file carries its name and the
content the pandas readers would produce (`parse`); the utf-8/latin-1
retry concerns only the byte decoding of that same content.  `load_file`
returns `Except.error msg` where the Python wraps the failure in
`raise Exception(f"Failed to load file: {str(e)}")`. -/

structure DataFrame where
  columns : List String
  rows : List (List String)
deriving DecidableEq, Repr

def DataFrame.pyEmpty (df : DataFrame) : Bool :=
  df.rows.isEmpty || df.columns.isEmpty

structure UploadedFile where
  name : String
  parse : DataFrame
deriving DecidableEq, Repr

/-- Python's `str.endswith`. -/
def strEndsWith (s suffix : String) : Bool :=
  List.isSuffixOf suffix.data s.data

namespace DataProcessor

/-- `DataProcessor.load_file` (src/utils/data_processor.py lines 9-36). -/
def load_file (f : UploadedFile) : Except String DataFrame :=
  if strEndsWith f.name ".csv" ||
      (strEndsWith f.name ".xlsx" || strEndsWith f.name ".xls") then
    let df := f.parse
    if df.pyEmpty then
      Except.error "Failed to load file: The uploaded file is empty."
    else
      Except.ok { df with columns := df.columns.map (fun c => c.trim) }
  else
    Except.error "Failed to load file: Unsupported file format. Please upload CSV or Excel files."

end DataProcessor

/-- C4 counterexample: on a file with an unsupported extension `load_file`
propagates a wrapped exception instead of returning a sentinel value. -/
theorem load_file_counterexample :
    DataProcessor.load_file ⟨"notes.txt", ⟨["a"], [["1"]]⟩⟩ =
      Except.error "Failed to load file: Unsupported file format. Please upload CSV or Excel files." := by
  rfl

/-- C4 (amended): the cited guarded read operations return their sentinel
(`get_all_users_stats` always produces its stats dict), but
`DataProcessor.load_file` re-raises a wrapped exception — on an
unsupported file extension and on an empty frame it evaluates to
`Except.error "Failed to load file: ..."` rather than a sentinel. -/
theorem load_file_raises (f : UploadedFile)
    (users : List (String × UserRecord)) :
    ((strEndsWith f.name ".csv" ||
        (strEndsWith f.name ".xlsx" || strEndsWith f.name ".xls")) = false →
      DataProcessor.load_file f =
        Except.error "Failed to load file: Unsupported file format. Please upload CSV or Excel files.") ∧
    ((strEndsWith f.name ".csv" ||
        (strEndsWith f.name ".xlsx" || strEndsWith f.name ".xls")) = true →
      f.parse.pyEmpty = true →
      DataProcessor.load_file f =
        Except.error "Failed to load file: The uploaded file is empty.") ∧
    (AuthManager.get_all_users_stats users =
      { total_users := users.length,
        active_users := (users.map Prod.snd).countP (fun u => u.is_active),
        learning_styles_distribution := (users.map Prod.snd).foldl (fun acc u =>
          let style := (alookup "learning_style" u.preferences).getD "Unknown"
          aset style ((alookup style acc).getD 0 + 1) acc) [],
        registration_dates := (users.map Prod.snd).map (fun u => u.created_at) }) := by
  refine ⟨?_, ?_, rfl⟩
  · intro h
    unfold DataProcessor.load_file
    rw [h]
    rfl
  · intro h hempty
    unfold DataProcessor.load_file
    rw [h, if_pos rfl, if_pos hempty]

/-- C4 witness: a `.txt` upload and an empty `.csv` upload both produce
errors; the stats dict of a one-user store is returned as a value. -/
theorem load_file_raises_witness :
    (DataProcessor.load_file ⟨"report.pdf", ⟨["a"], [["1"]]⟩⟩ =
      Except.error "Failed to load file: Unsupported file format. Please upload CSV or Excel files.") ∧
    (DataProcessor.load_file ⟨"empty.csv", ⟨["a"], []⟩⟩ =
      Except.error "Failed to load file: The uploaded file is empty.") ∧
    (AuthManager.get_all_users_stats
        [("alice", ⟨"id0", "alice", "a@x", some "pw", [("learning_style", "Visual")], "t", none, true⟩)] =
      { total_users := 1, active_users := 1,
        learning_styles_distribution := [("Visual", 1)],
        registration_dates := ["t"] }) := by
  refine ⟨(load_file_raises ⟨"report.pdf", ⟨["a"], [["1"]]⟩⟩ []).1 (by decide),
    (load_file_raises ⟨"empty.csv", ⟨["a"], []⟩⟩ []).2.1 (by decide) (by decide),
    ?_⟩
  have h := (load_file_raises ⟨"empty.csv", ⟨["a"], []⟩⟩
    [("alice", ⟨"id0", "alice", "a@x", some "pw", [("learning_style", "Visual")], "t", none, true⟩)]).2.2
  rw [h]
  decide

/-! ### `utils/database.py` — `DatabaseManager._create_tables`

The schema state is the dict of existing tables (name, column DDL).  Each
`conn.execute(text("CREATE TABLE IF NOT EXISTS ..."))` creates the table
only when its name is absent. -/

namespace DatabaseManager

/-- One `CREATE TABLE IF NOT EXISTS` statement applied to a schema. -/
def create_table_if_not_exists (stmt : String × String)
    (schema : List (String × String)) : List (String × String) :=
  if stmt.1 ∈ akeys schema then schema else schema ++ [stmt]

/-- The eight statements of `DatabaseManager._create_tables`
(src/utils/database.py lines 38-159), in execution order, with each
table's column DDL condensed to one line. -/
def table_statements : List (String × String) :=
  [("users", "user_id VARCHAR(36) PRIMARY KEY, username VARCHAR(50) UNIQUE NOT NULL, email VARCHAR(100) NOT NULL, password_hash VARCHAR(255) NOT NULL, preferences JSONB, created_at TIMESTAMP DEFAULT CURRENT_TIMESTAMP, last_login TIMESTAMP, is_active BOOLEAN DEFAULT TRUE"),
   ("courses", "course_id VARCHAR(36) PRIMARY KEY, title VARCHAR(200) NOT NULL, description TEXT, category VARCHAR(50), difficulty VARCHAR(20), estimated_hours INTEGER, rating DECIMAL(3,2), instructor VARCHAR(100), tags TEXT[], prerequisites TEXT[], learning_outcomes TEXT[], lessons JSONB, created_at TIMESTAMP DEFAULT CURRENT_TIMESTAMP"),
   ("enrollments", "enrollment_id SERIAL PRIMARY KEY, user_id VARCHAR(36) REFERENCES users(user_id), course_id VARCHAR(36) REFERENCES courses(course_id), enrolled_at TIMESTAMP DEFAULT CURRENT_TIMESTAMP, progress_percentage DECIMAL(5,2) DEFAULT 0, completed_at TIMESTAMP, UNIQUE(user_id, course_id)"),
   ("user_progress", "progress_id SERIAL PRIMARY KEY, user_id VARCHAR(36) REFERENCES users(user_id), course_id VARCHAR(36) REFERENCES courses(course_id), lesson_id VARCHAR(36), completed_at TIMESTAMP DEFAULT CURRENT_TIMESTAMP, time_spent_minutes INTEGER DEFAULT 0, UNIQUE(user_id, course_id, lesson_id)"),
   ("quiz_results", "result_id SERIAL PRIMARY KEY, user_id VARCHAR(36) REFERENCES users(user_id), quiz_id VARCHAR(36), topic VARCHAR(100), difficulty VARCHAR(20), score_percentage DECIMAL(5,2), correct_answers INTEGER, total_questions INTEGER, user_answers JSONB, completed_at TIMESTAMP DEFAULT CURRENT_TIMESTAMP"),
   ("user_achievements", "achievement_id SERIAL PRIMARY KEY, user_id VARCHAR(36) REFERENCES users(user_id), achievement_type VARCHAR(50), title VARCHAR(100), description TEXT, points INTEGER, earned_at TIMESTAMP DEFAULT CURRENT_TIMESTAMP"),
   ("user_interactions", "interaction_id SERIAL PRIMARY KEY, user_id VARCHAR(36) REFERENCES users(user_id), interaction_type VARCHAR(50), course_id VARCHAR(36), metadata JSONB, created_at TIMESTAMP DEFAULT CURRENT_TIMESTAMP"),
   ("user_stats", "user_id VARCHAR(36) PRIMARY KEY REFERENCES users(user_id), total_points INTEGER DEFAULT 0, current_level INTEGER DEFAULT 1, streak_days INTEGER DEFAULT 0, time_studied_today INTEGER DEFAULT 0, daily_goal_minutes INTEGER DEFAULT 30, last_activity_date DATE, total_study_time INTEGER DEFAULT 0")]

/-- `DatabaseManager._create_tables` (src/utils/database.py lines 38-159). -/
def create_tables (schema : List (String × String)) : List (String × String) :=
  table_statements.foldl (fun s stmt => create_table_if_not_exists stmt s) schema

end DatabaseManager

theorem create_table_mem_preserved {a : String} {stmt : String × String}
    {schema : List (String × String)} (h : a ∈ akeys schema) :
    a ∈ akeys (DatabaseManager.create_table_if_not_exists stmt schema) := by
  unfold DatabaseManager.create_table_if_not_exists
  split
  · exact h
  · simpa [akeys] using Or.inl (by simpa [akeys] using h)

theorem create_table_mem_self (stmt : String × String)
    (schema : List (String × String)) :
    stmt.1 ∈ akeys (DatabaseManager.create_table_if_not_exists stmt schema) := by
  unfold DatabaseManager.create_table_if_not_exists
  split
  · assumption
  · simp [akeys]

theorem create_table_noop {stmt : String × String}
    {schema : List (String × String)} (h : stmt.1 ∈ akeys schema) :
    DatabaseManager.create_table_if_not_exists stmt schema = schema := by
  unfold DatabaseManager.create_table_if_not_exists
  rw [if_pos h]

theorem foldl_create_mem_preserved {a : String}
    (stmts : List (String × String)) :
    ∀ schema : List (String × String), a ∈ akeys schema →
      a ∈ akeys (stmts.foldl
        (fun s stmt => DatabaseManager.create_table_if_not_exists stmt s) schema) := by
  induction stmts with
  | nil => intro schema h; exact h
  | cons st rest ih =>
    intro schema h
    exact ih _ (create_table_mem_preserved h)

theorem foldl_create_all_present (stmts : List (String × String)) :
    ∀ schema : List (String × String), ∀ stmt ∈ stmts,
      stmt.1 ∈ akeys (stmts.foldl
        (fun s st => DatabaseManager.create_table_if_not_exists st s) schema) := by
  induction stmts with
  | nil => intro _ _ h; cases h
  | cons st rest ih =>
    intro schema stmt hmem
    rcases List.mem_cons.mp hmem with hmem | hmem
    · subst hmem
      exact foldl_create_mem_preserved rest _ (create_table_mem_self stmt schema)
    · exact ih _ stmt hmem

theorem foldl_create_noop (stmts : List (String × String)) :
    ∀ schema : List (String × String),
      (∀ stmt ∈ stmts, stmt.1 ∈ akeys schema) →
      stmts.foldl
        (fun s st => DatabaseManager.create_table_if_not_exists st s) schema
        = schema := by
  induction stmts with
  | nil => intro schema _; rfl
  | cons st rest ih =>
    intro schema h
    have hst := create_table_noop (h st (List.mem_cons_self ..))
    rw [List.foldl_cons, hst]
    exact ih schema (fun stmt hmem => h stmt (List.mem_cons_of_mem _ hmem))

/-- C6: starting from an empty database `_create_tables` creates exactly
the eight tables users, courses, enrollments, user_progress, quiz_results,
user_achievements, user_interactions, user_stats (in that order), and the
operation is idempotent on every schema state since each statement is
`CREATE TABLE IF NOT EXISTS`. -/
theorem create_tables_spec :
    akeys (DatabaseManager.create_tables []) =
      ["users", "courses", "enrollments", "user_progress", "quiz_results",
       "user_achievements", "user_interactions", "user_stats"] ∧
    ∀ schema : List (String × String),
      DatabaseManager.create_tables (DatabaseManager.create_tables schema)
        = DatabaseManager.create_tables schema := by
  constructor
  · rfl
  · intro schema
    unfold DatabaseManager.create_tables
    exact foldl_create_noop _ _
      (fun stmt hmem => foldl_create_all_present _ _ stmt hmem)

/-! ### `utils/progress_tracker.py` — `ProgressTracker`

The tracker's state is the pair of its two JSON stores: `user_progress`
(user id → progress dict) and the `user_achievements` part of
`achievements_data` (user id → list of awarded records; the `definitions`
part is the constant table below).  `get_user_progress` both reads and, for
a fresh user, initialises the record, so it returns the possibly-updated
state.  `datetime.now().isoformat()` is the `now` parameter, and the
lesson list that `_update_course_progress` fetches from `CourseManager`
enters as `lesson_count : String → Nat` (only its length is used). -/

structure AchievementDef where
  title : String
  description : String
  icon : String
  points : Nat
deriving DecidableEq, Repr

structure AchievementRecord where
  achievement_id : String
  title : String
  description : String
  icon : String
  points : Nat
  date : String
deriving DecidableEq, Repr

structure UserProgress where
  enrolled_courses : List String
  completed_courses : List String
  completed_lessons : Nat
  total_points : Nat
  level : Nat
  streak_days : Nat
  time_studied_today : Nat
  daily_goal_minutes : Nat
  course_progress : List (String × ℚ)
  completed_lessons_by_course : List (String × List String)
  time_spent_by_course : List (String × Nat)
  last_activity : Option String
  created_at : String
deriving DecidableEq, Repr

structure TrackerState where
  user_progress : List (String × UserProgress)
  user_achievements : List (String × List AchievementRecord)
deriving DecidableEq, Repr

namespace ProgressTracker

/-- The `definitions` table installed by `_initialize_achievements`
(src/utils/progress_tracker.py lines 52-90). -/
def achievement_definitions : List (String × AchievementDef) :=
  [("first_course", ⟨"Getting Started", "Enrolled in your first course", "🎯", 50⟩),
   ("first_completion", ⟨"Course Completer", "Completed your first course", "🏆", 100⟩),
   ("week_streak", ⟨"Week Warrior", "Studied for 7 consecutive days", "🔥", 150⟩),
   ("quiz_master", ⟨"Quiz Master", "Scored 90% or higher on 5 quizzes", "🧠", 200⟩),
   ("speed_learner", ⟨"Speed Learner", "Completed 3 courses in a month", "⚡", 300⟩)]

/-- The fresh progress record created by `get_user_progress`
(src/utils/progress_tracker.py lines 94-109). -/
def default_progress (now : String) : UserProgress :=
  { enrolled_courses := [], completed_courses := [], completed_lessons := 0,
    total_points := 0, level := 1, streak_days := 0, time_studied_today := 0,
    daily_goal_minutes := 30, course_progress := [],
    completed_lessons_by_course := [], time_spent_by_course := [],
    last_activity := none, created_at := now }

/-- `ProgressTracker.get_user_progress`
(src/utils/progress_tracker.py lines 92-112). -/
def get_user_progress (now user_id : String) (s : TrackerState) :
    UserProgress × TrackerState :=
  match alookup user_id s.user_progress with
  | some p => (p, s)
  | none =>
    let p := default_progress now
    (p, { s with user_progress := aset user_id p s.user_progress })

/-- Writing the (Python: in-place mutated) progress record back. -/
def set_progress (user_id : String) (p : UserProgress) (s : TrackerState) :
    TrackerState :=
  { s with user_progress := aset user_id p s.user_progress }

/-- Whether a user already holds an achievement. -/
def has_achievement (s : TrackerState) (user_id achievement_id : String) : Bool :=
  ((alookup user_id s.user_achievements).getD []).any
    (fun a => a.achievement_id == achievement_id)

/-- The `if user_id not in self.achievements_data['user_achievements']`
initialisation at the top of `_award_achievement`. -/
def ensure_user_achievements (user_id : String) (s : TrackerState) : TrackerState :=
  if alookup user_id s.user_achievements = none
  then { s with user_achievements := aset user_id [] s.user_achievements }
  else s

/-- `ProgressTracker._award_achievement`
(src/utils/progress_tracker.py lines 289-328). -/
def award_achievement (now user_id achievement_id : String) (s : TrackerState) :
    TrackerState :=
  let s := ensure_user_achievements user_id s
  let user_achs := (alookup user_id s.user_achievements).getD []
  if user_achs.any (fun a => a.achievement_id == achievement_id) then s
  else
    match alookup achievement_id achievement_definitions with
    | none => s
    | some d =>
      let record : AchievementRecord :=
        ⟨achievement_id, d.title, d.description, d.icon, d.points, now⟩
      let s := { s with user_achievements := aset user_id (user_achs ++ [record]) s.user_achievements }
      let ps := get_user_progress now user_id s
      set_progress user_id
        { ps.1 with total_points := ps.1.total_points + d.points } ps.2

/-- `ProgressTracker._update_course_progress`
(src/utils/progress_tracker.py lines 161-186); an empty lesson list makes
the helper return early. -/
def update_course_progress (lesson_count : String → Nat)
    (now user_id course_id : String) (s : TrackerState) : TrackerState :=
  let n := lesson_count course_id
  if n = 0 then s
  else
    let ps := get_user_progress now user_id s
    let p := ps.1
    let s := ps.2
    let completed := (alookup course_id p.completed_lessons_by_course).getD []
    let pct : ℚ := (completed.length : ℚ) / (n : ℚ) * 100
    let p := { p with course_progress := aset course_id (min pct 100) p.course_progress }
    let s := set_progress user_id p s
    if 100 ≤ pct ∧ course_id ∉ p.completed_courses then
      let p := { p with completed_courses := p.completed_courses ++ [course_id] }
      let p := { p with total_points := p.total_points + 500 }
      let s := set_progress user_id p s
      award_achievement now user_id "first_completion" s
    else s

/-- `ProgressTracker._check_achievements`
(src/utils/progress_tracker.py lines 267-287): the completion dates are all
`datetime.now()`, hence within the 30-day window, so the nested date
filters reduce to the `len(...) >= 3` test. -/
def check_achievements (now user_id : String) (s : TrackerState) : TrackerState :=
  let ps := get_user_progress now user_id s
  if 3 ≤ ps.1.completed_courses.length then
    award_achievement now user_id "speed_learner" ps.2
  else ps.2

/-- `ProgressTracker.enroll_in_course`
(src/utils/progress_tracker.py lines 188-210). -/
def enroll_in_course (now user_id course_id : String) (s : TrackerState) :
    Bool × TrackerState :=
  let ps := get_user_progress now user_id s
  let p := ps.1
  let s := ps.2
  if course_id ∈ p.enrolled_courses then (false, s)
  else
    let p := { p with enrolled_courses := p.enrolled_courses ++ [course_id] }
    let p := { p with course_progress := aset course_id 0 p.course_progress }
    let p := { p with completed_lessons_by_course := aset course_id [] p.completed_lessons_by_course }
    let p := { p with time_spent_by_course := aset course_id 0 p.time_spent_by_course }
    let s := set_progress user_id p s
    let s := if p.enrolled_courses.length = 1
      then award_achievement now user_id "first_course" s else s
    (true, s)

/-- The `if course_id not in progress['completed_lessons_by_course']`
initialisation of `complete_lesson`
(src/utils/progress_tracker.py lines 120-121). -/
def ensure_course_list (course_id : String) (p : UserProgress) : UserProgress :=
  if alookup course_id p.completed_lessons_by_course = none
  then { p with completed_lessons_by_course := aset course_id [] p.completed_lessons_by_course }
  else p

/-- The new-lesson mutations of `complete_lesson`: append the lesson id,
bump the counter, award the flat 20 lesson points
(src/utils/progress_tracker.py lines 124-129). -/
def record_lesson (course_id lesson_id : String) (cur : List String)
    (p : UserProgress) : UserProgress :=
  let p := { p with completed_lessons_by_course := aset course_id (cur ++ [lesson_id]) p.completed_lessons_by_course }
  let p := { p with completed_lessons := p.completed_lessons + 1 }
  { p with total_points := p.total_points + 20 }

/-- The `if time_spent > 0` bookkeeping of `complete_lesson`
(src/utils/progress_tracker.py lines 132-136). -/
def add_lesson_time (course_id : String) (time_spent : Nat) (p : UserProgress) :
    UserProgress :=
  if 0 < time_spent then
    { { p with time_spent_by_course := aset course_id ((alookup course_id p.time_spent_by_course).getD 0 + time_spent) p.time_spent_by_course }
      with time_studied_today := p.time_studied_today + time_spent }
  else p

/-- The trailing `last_activity` stamp and level recomputation of
`complete_lesson` (src/utils/progress_tracker.py lines 145-150). -/
def touch_activity_and_level (now : String) (p : UserProgress) : UserProgress :=
  let p := { p with last_activity := some now }
  let newLevel : Nat := p.total_points / 1000 + 1
  if p.level < newLevel then { p with level := newLevel } else p

/-- `ProgressTracker.complete_lesson`
(src/utils/progress_tracker.py lines 114-159), assembled from the step
helpers above.  In the already-recorded branch the Python code has mutated
nothing (the course key must have been present for the lesson to be in its
list), so the state after `get_user_progress` is returned unchanged. -/
def complete_lesson (lesson_count : String → Nat)
    (now user_id course_id lesson_id : String) (time_spent : Nat)
    (s : TrackerState) : Bool × TrackerState :=
  let ps := get_user_progress now user_id s
  let p := ensure_course_list course_id ps.1
  let cur := (alookup course_id p.completed_lessons_by_course).getD []
  if lesson_id ∈ cur then (false, ps.2)
  else
    let p := add_lesson_time course_id time_spent
      (record_lesson course_id lesson_id cur p)
    let s := set_progress user_id p ps.2
    let s := update_course_progress lesson_count now user_id course_id s
    let s := check_achievements now user_id s
    let ps2 := get_user_progress now user_id s
    (true, set_progress user_id (touch_activity_and_level now ps2.1) ps2.2)

end ProgressTracker

/-- C2: enrolling a user a second time in the same course is a no-op:
`CourseManager.enroll_user` returns `False` with the enrollments dict
unchanged, and `ProgressTracker.enroll_in_course` returns `False` with the
whole tracker state (hence the user's progress record) unchanged. -/
theorem enroll_twice_noop (enrollments : List (String × List String))
    (now user_id course_id : String) (s : TrackerState) :
    (course_id ∈ (alookup user_id enrollments).getD [] →
      CourseManager.enroll_user enrollments user_id course_id
        = (false, enrollments)) ∧
    (course_id ∈ ((alookup user_id s.user_progress).getD
        (ProgressTracker.default_progress now)).enrolled_courses →
      ProgressTracker.enroll_in_course now user_id course_id s = (false, s)) := by
  constructor
  · intro h
    cases hlook : alookup user_id enrollments with
    | none => rw [hlook] at h; cases h
    | some l =>
      rw [hlook] at h
      simp only [Option.getD_some] at h
      unfold CourseManager.enroll_user
      simp [hlook, h]
  · intro h
    cases hlook : alookup user_id s.user_progress with
    | none =>
      rw [hlook] at h
      simp [ProgressTracker.default_progress] at h
    | some p =>
      rw [hlook] at h
      simp only [Option.getD_some] at h
      unfold ProgressTracker.enroll_in_course ProgressTracker.get_user_progress
      simp [hlook, h]

/-- C2 witness: a user already enrolled in `"c"` in both stores. -/
theorem enroll_twice_noop_witness :
    (CourseManager.enroll_user [("u", ["c"])] "u" "c" = (false, [("u", ["c"])])) ∧
    (ProgressTracker.enroll_in_course "t0" "u" "c"
        ⟨[("u", { ProgressTracker.default_progress "t0" with enrolled_courses := ["c"] })], []⟩
      = (false, ⟨[("u", { ProgressTracker.default_progress "t0" with enrolled_courses := ["c"] })], []⟩)) :=
  ⟨(enroll_twice_noop [("u", ["c"])] "t0" "u" "c" ⟨[], []⟩).1 (by decide),
   (enroll_twice_noop [] "t0" "u" "c"
      ⟨[("u", { ProgressTracker.default_progress "t0" with enrolled_courses := ["c"] })], []⟩).2
     (by with_unfolding_all decide)⟩

/-! Spec-side abbreviations for the C10 statement: the user's progress
record before the call, the lesson list already recorded for the course,
and the point bonuses the completion triggers. -/

def old_progress (now user_id : String) (s : TrackerState) : UserProgress :=
  (alookup user_id s.user_progress).getD (ProgressTracker.default_progress now)

def old_lessons (now user_id course_id : String) (s : TrackerState) : List String :=
  (alookup course_id (old_progress now user_id s).completed_lessons_by_course).getD []

/-- Whether completing one more lesson of `course_id` brings the user's
completion of that course to 100% (and the course was not yet recorded
completed), triggering the 500-point bonus path. -/
def completes_course (lesson_count : String → Nat) (now user_id course_id : String)
    (s : TrackerState) : Prop :=
  ¬ lesson_count course_id = 0 ∧
  (100 : ℚ) ≤ (((old_lessons now user_id course_id s).length : ℚ) + 1)
      / (lesson_count course_id : ℚ) * 100 ∧
  course_id ∉ (old_progress now user_id s).completed_courses

instance completes_course_decidable (lesson_count : String → Nat)
    (now user_id course_id : String) (s : TrackerState) :
    Decidable (completes_course lesson_count now user_id course_id s) := by
  unfold completes_course
  infer_instance

/-- Points added on top of the flat 20 when the completion finishes the
course: the 500-point course bonus plus the 100-point `first_completion`
achievement when not yet earned. -/
def completion_bonus (lesson_count : String → Nat) (now user_id course_id : String)
    (s : TrackerState) : Nat :=
  if completes_course lesson_count now user_id course_id s then
    500 + (if ProgressTracker.has_achievement s user_id "first_completion"
      then 0 else 100)
  else 0

def completed_after (lesson_count : String → Nat) (now user_id course_id : String)
    (s : TrackerState) : List String :=
  if completes_course lesson_count now user_id course_id s then
    (old_progress now user_id s).completed_courses ++ [course_id]
  else (old_progress now user_id s).completed_courses

/-- The 300-point `speed_learner` achievement awarded by
`_check_achievements` once the user has 3 or more completed courses. -/
def speed_bonus (lesson_count : String → Nat) (now user_id course_id : String)
    (s : TrackerState) : Nat :=
  if 3 ≤ (completed_after lesson_count now user_id course_id s).length ∧
      ¬ ProgressTracker.has_achievement s user_id "speed_learner"
  then 300 else 0

/-! Bookkeeping lemmas for the `ProgressTracker` state functions. -/

theorem gup_of_some {now user_id : String} {s : TrackerState} {p : UserProgress}
    (h : alookup user_id s.user_progress = some p) :
    ProgressTracker.get_user_progress now user_id s = (p, s) := by
  unfold ProgressTracker.get_user_progress
  rw [h]

theorem gup_lookup (now user_id : String) (s : TrackerState) :
    alookup user_id (ProgressTracker.get_user_progress now user_id s).2.user_progress
      = some (ProgressTracker.get_user_progress now user_id s).1 := by
  unfold ProgressTracker.get_user_progress
  cases h : alookup user_id s.user_progress with
  | some p => simp [h]
  | none => simp [h, alookup_aset_self]

theorem gup_ach (now user_id : String) (s : TrackerState) :
    (ProgressTracker.get_user_progress now user_id s).2.user_achievements
      = s.user_achievements := by
  unfold ProgressTracker.get_user_progress
  cases h : alookup user_id s.user_progress <;> simp [h]

theorem gup_fst (now user_id : String) (s : TrackerState) :
    (ProgressTracker.get_user_progress now user_id s).1
      = old_progress now user_id s := by
  unfold ProgressTracker.get_user_progress old_progress
  cases h : alookup user_id s.user_progress <;> simp [h]

theorem set_progress_ach (user_id : String) (p : UserProgress) (s : TrackerState) :
    (ProgressTracker.set_progress user_id p s).user_achievements
      = s.user_achievements := rfl

theorem set_progress_lookup (user_id : String) (p : UserProgress) (s : TrackerState) :
    alookup user_id (ProgressTracker.set_progress user_id p s).user_progress
      = some p := alookup_aset_self ..

theorem has_achievement_congr {s s' : TrackerState}
    (h : s.user_achievements = s'.user_achievements) (user_id aid : String) :
    ProgressTracker.has_achievement s user_id aid
      = ProgressTracker.has_achievement s' user_id aid := by
  unfold ProgressTracker.has_achievement
  rw [h]

theorem has_achievement_set_progress (user_id writer_id : String)
    (p : UserProgress) (s : TrackerState) (aid : String) :
    ProgressTracker.has_achievement (ProgressTracker.set_progress writer_id p s)
      user_id aid = ProgressTracker.has_achievement s user_id aid := rfl

theorem ensure_ua_progress (user_id : String) (s : TrackerState) :
    (ProgressTracker.ensure_user_achievements user_id s).user_progress
      = s.user_progress := by
  unfold ProgressTracker.ensure_user_achievements
  split <;> rfl

theorem ensure_ua_getD (user_id : String) (s : TrackerState) :
    (alookup user_id
      (ProgressTracker.ensure_user_achievements user_id s).user_achievements).getD []
      = (alookup user_id s.user_achievements).getD [] := by
  unfold ProgressTracker.ensure_user_achievements
  cases h : alookup user_id s.user_achievements <;> simp [h, alookup_aset_self]

theorem award_progress_lookup (now user_id aid : String) (d : AchievementDef)
    (s : TrackerState) (p : UserProgress)
    (hdef : alookup aid ProgressTracker.achievement_definitions = some d)
    (hp : alookup user_id s.user_progress = some p) :
    alookup user_id
        (ProgressTracker.award_achievement now user_id aid s).user_progress
      = some (if ProgressTracker.has_achievement s user_id aid then p
        else { p with total_points := p.total_points + d.points }) := by
  unfold ProgressTracker.award_achievement
  by_cases hany : ((alookup user_id
      (ProgressTracker.ensure_user_achievements user_id s).user_achievements).getD
        []).any (fun a => a.achievement_id == aid) = true
  · have hhas : ProgressTracker.has_achievement s user_id aid = true := by
      unfold ProgressTracker.has_achievement
      rw [← ensure_ua_getD]
      exact hany
    rw [if_pos hany, ensure_ua_progress, hp, hhas]
    rfl
  · have hhas : ProgressTracker.has_achievement s user_id aid = false := by
      unfold ProgressTracker.has_achievement
      rw [← ensure_ua_getD]
      exact Bool.not_eq_true _ ▸ hany
    rw [if_neg hany, hdef, hhas]
    simp only [ProgressTracker.get_user_progress, ensure_ua_progress, hp,
      ProgressTracker.set_progress, alookup_aset_self, Bool.false_eq_true,
      if_false]

theorem award_ach_other (now user_id aid aid' : String) (s : TrackerState)
    (hne : aid' ≠ aid) :
    ProgressTracker.has_achievement
      (ProgressTracker.award_achievement now user_id aid s) user_id aid'
      = ProgressTracker.has_achievement s user_id aid' := by
  unfold ProgressTracker.award_achievement
  by_cases hany : ((alookup user_id
      (ProgressTracker.ensure_user_achievements user_id s).user_achievements).getD
        []).any (fun a => a.achievement_id == aid) = true
  · rw [if_pos hany]
    unfold ProgressTracker.has_achievement
    rw [ensure_ua_getD]
  · rw [if_neg hany]
    cases hdef : alookup aid ProgressTracker.achievement_definitions with
    | none =>
      dsimp only
      unfold ProgressTracker.has_achievement
      rw [ensure_ua_getD]
    | some d =>
      dsimp only
      unfold ProgressTracker.has_achievement
      rw [set_progress_ach, gup_ach]
      simp [alookup_aset_self, Ne.symm hne, ensure_ua_getD]

/-- The completion condition of `_update_course_progress` in terms of the
progress record it reads: a non-empty lesson list, a completion percentage
reaching 100, and a course not yet recorded completed. -/
def ucp_triggers (lesson_count : String → Nat) (course_id : String)
    (p : UserProgress) : Prop :=
  ¬ lesson_count course_id = 0 ∧
  (100 : ℚ) ≤ (((alookup course_id p.completed_lessons_by_course).getD
    []).length : ℚ) / (lesson_count course_id : ℚ) * 100 ∧
  course_id ∉ p.completed_courses

instance ucp_triggers_decidable (lesson_count : String → Nat) (course_id : String)
    (p : UserProgress) : Decidable (ucp_triggers lesson_count course_id p) := by
  unfold ucp_triggers
  infer_instance

theorem ucp_progress_lookup (lesson_count : String → Nat)
    (now user_id course_id : String) (s : TrackerState) (p : UserProgress)
    (hp : alookup user_id s.user_progress = some p) :
    ∃ p', alookup user_id (ProgressTracker.update_course_progress lesson_count
        now user_id course_id s).user_progress = some p' ∧
      p'.total_points = p.total_points +
        (if ucp_triggers lesson_count course_id p then
          500 + (if ProgressTracker.has_achievement s user_id "first_completion"
            then 0 else 100)
         else 0) ∧
      p'.completed_courses = (if ucp_triggers lesson_count course_id p then
          p.completed_courses ++ [course_id] else p.completed_courses) ∧
      p'.completed_lessons = p.completed_lessons ∧
      p'.completed_lessons_by_course = p.completed_lessons_by_course ∧
      ProgressTracker.has_achievement (ProgressTracker.update_course_progress
          lesson_count now user_id course_id s) user_id "speed_learner"
        = ProgressTracker.has_achievement s user_id "speed_learner" := by
  unfold ProgressTracker.update_course_progress
  by_cases hn : lesson_count course_id = 0
  · rw [if_pos hn]
    refine ⟨p, hp, ?_, ?_, rfl, rfl, rfl⟩
    · simp [ucp_triggers, hn]
    · simp [ucp_triggers, hn]
  · rw [if_neg hn, gup_of_some hp]
    dsimp only
    by_cases hcond : (100 : ℚ) ≤ (((alookup course_id
        p.completed_lessons_by_course).getD []).length : ℚ)
          / (lesson_count course_id : ℚ) * 100 ∧
        course_id ∉ p.completed_courses
    · rw [if_pos hcond]
      have htrig : ucp_triggers lesson_count course_id p := ⟨hn, hcond.1, hcond.2⟩
      refine ⟨_, award_progress_lookup now user_id "first_completion"
        ⟨"Course Completer", "Completed your first course", "🏆", 100⟩ _ _ rfl
        (set_progress_lookup _ _ _), ?_, ?_, ?_, ?_, ?_⟩
      · by_cases hhas : ProgressTracker.has_achievement s user_id "first_completion" = true <;>
          simp [htrig, hhas, has_achievement_set_progress] <;> omega
      · by_cases hhas : ProgressTracker.has_achievement s user_id "first_completion" = true <;>
          simp [htrig, hhas, has_achievement_set_progress]
      · by_cases hhas : ProgressTracker.has_achievement s user_id "first_completion" = true <;>
          simp [hhas, has_achievement_set_progress]
      · by_cases hhas : ProgressTracker.has_achievement s user_id "first_completion" = true <;>
          simp [hhas, has_achievement_set_progress]
      · rw [award_ach_other _ _ _ _ _ (by decide),
          has_achievement_set_progress, has_achievement_set_progress]
    · rw [if_neg hcond]
      have htrig : ¬ ucp_triggers lesson_count course_id p := by
        intro htrig
        exact hcond ⟨htrig.2.1, htrig.2.2⟩
      exact ⟨_, set_progress_lookup _ _ _, by simp [htrig], by simp [htrig], rfl,
        rfl, rfl⟩

theorem has_achievement_gup (now user_id reader_id : String) (s : TrackerState)
    (aid : String) :
    ProgressTracker.has_achievement
      (ProgressTracker.get_user_progress now reader_id s).2 user_id aid
      = ProgressTracker.has_achievement s user_id aid := by
  unfold ProgressTracker.has_achievement
  rw [gup_ach]

theorem check_ach_progress_lookup (now user_id : String) (s : TrackerState)
    (p : UserProgress) (hp : alookup user_id s.user_progress = some p) :
    ∃ p', alookup user_id (ProgressTracker.check_achievements now user_id
        s).user_progress = some p' ∧
      p'.total_points = p.total_points +
        (if 3 ≤ p.completed_courses.length ∧
            ¬ ProgressTracker.has_achievement s user_id "speed_learner" = true
          then 300 else 0) ∧
      p'.completed_lessons = p.completed_lessons ∧
      p'.completed_lessons_by_course = p.completed_lessons_by_course := by
  unfold ProgressTracker.check_achievements
  rw [gup_of_some hp]
  dsimp only
  by_cases hlen : 3 ≤ p.completed_courses.length
  · rw [if_pos hlen]
    refine ⟨_, award_progress_lookup now user_id "speed_learner"
      ⟨"Speed Learner", "Completed 3 courses in a month", "⚡", 300⟩ _ _ rfl hp,
      ?_, ?_, ?_⟩
    · by_cases hhas : ProgressTracker.has_achievement s user_id "speed_learner" = true <;>
        simp [hlen, hhas]
    · by_cases hhas : ProgressTracker.has_achievement s user_id "speed_learner" = true <;>
        simp [hhas]
    · by_cases hhas : ProgressTracker.has_achievement s user_id "speed_learner" = true <;>
        simp [hhas]
  · rw [if_neg hlen]
    exact ⟨p, hp, by simp [hlen], rfl, rfl⟩

theorem ensure_course_lookup (course_id : String) (p : UserProgress) :
    alookup course_id (ProgressTracker.ensure_course_list course_id
        p).completed_lessons_by_course
      = some ((alookup course_id p.completed_lessons_by_course).getD []) := by
  unfold ProgressTracker.ensure_course_list
  cases h : alookup course_id p.completed_lessons_by_course <;>
    simp [h, alookup_aset_self]

theorem ensure_course_cc (course_id : String) (p : UserProgress) :
    (ProgressTracker.ensure_course_list course_id p).completed_courses
      = p.completed_courses := by
  unfold ProgressTracker.ensure_course_list
  split <;> rfl

theorem ensure_course_cl (course_id : String) (p : UserProgress) :
    (ProgressTracker.ensure_course_list course_id p).completed_lessons
      = p.completed_lessons := by
  unfold ProgressTracker.ensure_course_list
  split <;> rfl

theorem ensure_course_tp (course_id : String) (p : UserProgress) :
    (ProgressTracker.ensure_course_list course_id p).total_points
      = p.total_points := by
  unfold ProgressTracker.ensure_course_list
  split <;> rfl

theorem record_lesson_tp (course_id lesson_id : String) (cur : List String)
    (p : UserProgress) :
    (ProgressTracker.record_lesson course_id lesson_id cur p).total_points
      = p.total_points + 20 := rfl

theorem record_lesson_cl (course_id lesson_id : String) (cur : List String)
    (p : UserProgress) :
    (ProgressTracker.record_lesson course_id lesson_id cur p).completed_lessons
      = p.completed_lessons + 1 := rfl

theorem record_lesson_cc (course_id lesson_id : String) (cur : List String)
    (p : UserProgress) :
    (ProgressTracker.record_lesson course_id lesson_id cur p).completed_courses
      = p.completed_courses := rfl

theorem record_lesson_clbc (course_id lesson_id : String) (cur : List String)
    (p : UserProgress) :
    alookup course_id (ProgressTracker.record_lesson course_id lesson_id cur
        p).completed_lessons_by_course
      = some (cur ++ [lesson_id]) := by
  unfold ProgressTracker.record_lesson
  exact alookup_aset_self ..

theorem add_time_tp (course_id : String) (time_spent : Nat) (p : UserProgress) :
    (ProgressTracker.add_lesson_time course_id time_spent p).total_points
      = p.total_points := by
  unfold ProgressTracker.add_lesson_time
  split <;> rfl

theorem add_time_cl (course_id : String) (time_spent : Nat) (p : UserProgress) :
    (ProgressTracker.add_lesson_time course_id time_spent p).completed_lessons
      = p.completed_lessons := by
  unfold ProgressTracker.add_lesson_time
  split <;> rfl

theorem add_time_cc (course_id : String) (time_spent : Nat) (p : UserProgress) :
    (ProgressTracker.add_lesson_time course_id time_spent p).completed_courses
      = p.completed_courses := by
  unfold ProgressTracker.add_lesson_time
  split <;> rfl

theorem add_time_clbc (course_id : String) (time_spent : Nat) (p : UserProgress) :
    (ProgressTracker.add_lesson_time course_id time_spent
        p).completed_lessons_by_course
      = p.completed_lessons_by_course := by
  unfold ProgressTracker.add_lesson_time
  split <;> rfl

theorem touch_tp (now : String) (p : UserProgress) :
    (ProgressTracker.touch_activity_and_level now p).total_points
      = p.total_points := by
  unfold ProgressTracker.touch_activity_and_level
  dsimp only
  split <;> rfl

theorem touch_cl (now : String) (p : UserProgress) :
    (ProgressTracker.touch_activity_and_level now p).completed_lessons
      = p.completed_lessons := by
  unfold ProgressTracker.touch_activity_and_level
  dsimp only
  split <;> rfl

theorem touch_clbc (now : String) (p : UserProgress) :
    (ProgressTracker.touch_activity_and_level now p).completed_lessons_by_course
      = p.completed_lessons_by_course := by
  unfold ProgressTracker.touch_activity_and_level
  dsimp only
  split <;> rfl

/-- C10 (amended): the first `complete_lesson` call for an unrecorded
(user, course, lesson) triple returns `True`, appends the lesson to
`completed_lessons_by_course[course_id]`, increments `completed_lessons` by
exactly 1 and adds exactly 20 points — plus, when this completion brings
the course to 100% and it was not yet recorded completed, a 500-point
course bonus together with the 100-point `first_completion` achievement if
not yet earned, and plus the 300-point `speed_learner` achievement when
the user's completed-course count is then at least 3 and that achievement
was not yet earned; every subsequent call with the same triple returns
`False` and leaves the tracker state entirely unchanged. -/
theorem complete_lesson_spec (lesson_count : String → Nat)
    (now user_id course_id lesson_id : String) (time_spent : Nat)
    (s : TrackerState) :
    (lesson_id ∈ old_lessons now user_id course_id s →
      ProgressTracker.complete_lesson lesson_count now user_id course_id
        lesson_id time_spent s = (false, s)) ∧
    (lesson_id ∉ old_lessons now user_id course_id s →
      (ProgressTracker.complete_lesson lesson_count now user_id course_id
        lesson_id time_spent s).1 = true ∧
      ∃ p', alookup user_id (ProgressTracker.complete_lesson lesson_count now
          user_id course_id lesson_id time_spent s).2.user_progress = some p' ∧
        alookup course_id p'.completed_lessons_by_course
          = some (old_lessons now user_id course_id s ++ [lesson_id]) ∧
        p'.completed_lessons
          = (old_progress now user_id s).completed_lessons + 1 ∧
        p'.total_points = (old_progress now user_id s).total_points + 20 +
          completion_bonus lesson_count now user_id course_id s +
          speed_bonus lesson_count now user_id course_id s) := by
  constructor
  · intro hmem
    cases hlook : alookup user_id s.user_progress with
    | none =>
      exfalso
      unfold old_lessons old_progress at hmem
      rw [hlook] at hmem
      simp [ProgressTracker.default_progress, alookup] at hmem
    | some p =>
      unfold ProgressTracker.complete_lesson
      rw [gup_of_some hlook]
      dsimp only
      rw [ensure_course_lookup]
      simp only [Option.getD_some]
      have hm : lesson_id ∈ (alookup course_id
          p.completed_lessons_by_course).getD [] := by
        unfold old_lessons old_progress at hmem
        rw [hlook] at hmem
        simpa using hmem
      rw [if_pos hm]
  · intro hmem
    unfold ProgressTracker.complete_lesson
    dsimp only
    rw [gup_fst, ensure_course_lookup]
    simp only [Option.getD_some]
    have hmem' : ¬ lesson_id ∈ (alookup course_id
        (old_progress now user_id s).completed_lessons_by_course).getD [] := hmem
    rw [if_neg hmem']
    dsimp only
    set P0 := old_progress now user_id s with hP0
    set OldL := (alookup course_id P0.completed_lessons_by_course).getD [] with hOldL
    set S1 := (ProgressTracker.get_user_progress now user_id s).2 with hS1
    set P3 := ProgressTracker.add_lesson_time course_id time_spent
      (ProgressTracker.record_lesson course_id lesson_id OldL
        (ProgressTracker.ensure_course_list course_id P0)) with hP3
    set S2 := ProgressTracker.set_progress user_id P3 S1 with hS2
    have hS2look : alookup user_id S2.user_progress = some P3 := by
      rw [hS2]
      exact set_progress_lookup _ _ _
    have hP3tp : P3.total_points = P0.total_points + 20 := by
      rw [hP3, add_time_tp, record_lesson_tp, ensure_course_tp]
    have hP3cl : P3.completed_lessons = P0.completed_lessons + 1 := by
      rw [hP3, add_time_cl, record_lesson_cl, ensure_course_cl]
    have hP3cc : P3.completed_courses = P0.completed_courses := by
      rw [hP3, add_time_cc, record_lesson_cc, ensure_course_cc]
    have hP3clbc : alookup course_id P3.completed_lessons_by_course
        = some (OldL ++ [lesson_id]) := by
      rw [hP3, add_time_clbc, record_lesson_clbc]
    obtain ⟨p4, hp4look, hp4tp, hp4cc, hp4cl, hp4clbc, hp4speed⟩ :=
      ucp_progress_lookup lesson_count now user_id course_id S2 P3 hS2look
    obtain ⟨p5, hp5look, hp5tp, hp5cl, hp5clbc⟩ :=
      check_ach_progress_lookup now user_id _ p4 hp4look
    rw [gup_of_some hp5look]
    dsimp only
    have hTrig : ucp_triggers lesson_count course_id P3 ↔
        completes_course lesson_count now user_id course_id s := by
      unfold ucp_triggers completes_course old_lessons old_progress
      rw [hP3clbc, hP3cc]
      simp only [Option.getD_some, List.length_append, List.length_cons,
        List.length_nil]
      rw [hOldL, hP0]
      unfold old_progress
      push_cast
      rfl
    have hHasFC : ProgressTracker.has_achievement S2 user_id "first_completion"
        = ProgressTracker.has_achievement s user_id "first_completion" := by
      rw [hS2, has_achievement_set_progress, hS1, has_achievement_gup]
    have hHasSL : ProgressTracker.has_achievement S2 user_id "speed_learner"
        = ProgressTracker.has_achievement s user_id "speed_learner" := by
      rw [hS2, has_achievement_set_progress, hS1, has_achievement_gup]
    refine ⟨rfl, _, set_progress_lookup _ _ _, ?_, ?_, ?_⟩
    · rw [touch_clbc, hp5clbc, hp4clbc, hP3clbc, hOldL, hP0]
      rfl
    · rw [touch_cl, hp5cl, hp4cl, hP3cl, hP0]
    · rw [touch_tp, hp5tp, hp4tp, hP3tp]
      have hA : (if ucp_triggers lesson_count course_id P3 then
            500 + (if ProgressTracker.has_achievement S2 user_id
              "first_completion" = true then 0 else 100)
          else 0)
          = completion_bonus lesson_count now user_id course_id s := by
        unfold completion_bonus
        rw [hHasFC]
        exact if_congr hTrig rfl rfl
      have hcc : (if ucp_triggers lesson_count course_id P3 then
            P3.completed_courses ++ [course_id] else P3.completed_courses)
          = completed_after lesson_count now user_id course_id s := by
        unfold completed_after
        rw [hP3cc, hP0]
        exact if_congr hTrig rfl rfl
      have hB : (if 3 ≤ p4.completed_courses.length ∧
            ¬ ProgressTracker.has_achievement
              (ProgressTracker.update_course_progress lesson_count now user_id
                course_id S2) user_id "speed_learner" = true
          then 300 else 0)
          = speed_bonus lesson_count now user_id course_id s := by
        unfold speed_bonus
        rw [hp4speed, hHasSL, hp4cc, hcc]
      rw [hA, hB, hP0]


set_option maxRecDepth 8192 in
/-- C10 counterexample: on a fresh user and a one-lesson course the first
`complete_lesson` call adds 620 points (20 lesson + 500 completion bonus +
100 `first_completion` achievement), not the 520 the claim's
"exactly 20 plus a 500-point bonus" accounts for. -/
theorem complete_lesson_counterexample :
    (alookup "u" (ProgressTracker.complete_lesson (fun _ => 1) "t0" "u" "c" "l" 0
        ⟨[], []⟩).2.user_progress).map (fun p => p.total_points) = some 620 ∧
    (620 : Nat) ≠ 0 + 20 + 500 := by
  constructor
  · with_unfolding_all decide
  · decide

set_option maxRecDepth 8192 in
/-- C10 witness: a recorded triple is a no-op, and a fresh triple on a
one-lesson course gets the full first-completion accounting. -/
theorem complete_lesson_spec_witness :
    (ProgressTracker.complete_lesson (fun _ => 1) "t0" "u" "c" "l" 0
        ⟨[("u", { ProgressTracker.default_progress "t0" with completed_lessons_by_course := [("c", ["l"])] })], []⟩
      = (false, ⟨[("u", { ProgressTracker.default_progress "t0" with completed_lessons_by_course := [("c", ["l"])] })], []⟩)) ∧
    ((ProgressTracker.complete_lesson (fun _ => 1) "t0" "u" "c" "l" 0 ⟨[], []⟩).1 = true ∧
      ∃ p', alookup "u" (ProgressTracker.complete_lesson (fun _ => 1) "t0" "u" "c" "l" 0
          ⟨[], []⟩).2.user_progress = some p' ∧
        alookup "c" p'.completed_lessons_by_course
          = some (old_lessons "t0" "u" "c" ⟨[], []⟩ ++ ["l"]) ∧
        p'.completed_lessons = (old_progress "t0" "u" ⟨[], []⟩).completed_lessons + 1 ∧
        p'.total_points = (old_progress "t0" "u" ⟨[], []⟩).total_points + 20 +
          completion_bonus (fun _ => 1) "t0" "u" "c" ⟨[], []⟩ +
          speed_bonus (fun _ => 1) "t0" "u" "c" ⟨[], []⟩) :=
  ⟨(complete_lesson_spec (fun _ => 1) "t0" "u" "c" "l" 0
      ⟨[("u", { ProgressTracker.default_progress "t0" with completed_lessons_by_course := [("c", ["l"])] })], []⟩).1
    (by decide),
   (complete_lesson_spec (fun _ => 1) "t0" "u" "c" "l" 0 ⟨[], []⟩).2 (by decide)⟩
